import Mathlib

/-!
Verification development for the two program-synthesis engines of the
gas-cost-estimator repository:

* the randomized stack-consistent synthesizer
  (`src/program_generator/pg_validation.py`, method
  `ProgramGenerator._generate_random_arithmetic` and its entry point
  `ProgramGenerator.generate`), and
* the isolation (marginal) synthesizer
  (`src/program_generator/pg_marginal.py`, method
  `ProgramGenerator._generate_single_program` and the per-opcode template
  functions `_generate_create_program`, `_generate_extcode_program`,
  `_generate_call_program`, `_generate_tload_ext_program`,
  `_generate_tstore_ext_program`, `_generate_subcontext_exit_program`, ...).

The Python code is embedded shallowly:

* the process-wide random stream (`random.seed(a=seed)` at construction,
  advanced by every `random.choice` / `random.randint` /
  `random.getrandbits` / `random.random` call) is modelled as an explicit
  stream `σ : Nat → Nat` together with a running draw index; each random
  call consumes exactly one draw, reduced into its admissible range by a
  modulus, so that every sequence of outcomes the Python generator can
  produce corresponds to some stream;
* the bytecode, which Python builds as a string of hexadecimal digit
  pairs, is modelled for the validation generator as the list of emitted
  bytes (so the Python hex-string length is twice the list length), and
  for the marginal generator as the very hex strings of the source;
* the Python `while` loop is run on explicit fuel (the loop can genuinely
  fail to terminate for adversarial random streams, e.g. an endless run
  of DUP1 draws with only `opsLimit` set keeps `ops_count` constant);
* `raise ValueError` and `assert` become `Except PyError` results, so an
  error carries no partial output;
* `ops_count` is an `Int`, because the Python counter can be decremented
  (`ops_count += needed_pushes` with a negative `needed_pushes`).
-/

/-- Python error outcomes of the embedded code: `raise ValueError(...)` and a
failing `assert`. -/
inductive PyError where
  | valueError
  | assertionError
  deriving Repr, DecidableEq

/-- An entry of the sampling universe `all_ops` of
`_generate_random_arithmetic`: the Python list mixes opcode integers with the
two class-marker strings `"DUPclass"` and `"SWAPclass"`. -/
inductive PoolEntry where
  | op (n : Nat)
  | dupClass
  | swapClass
  deriving Repr, DecidableEq

/-- Python truthiness of a `dominant` argument value: the integer `0` is
falsy, every other integer and the nonempty class-marker strings are truthy. -/
def truthy : PoolEntry → Bool
  | .op n => n != 0
  | .dupClass => true
  | .swapClass => true

/-- Python truthiness of an optional argument (`None` and `0` are falsy). -/
def truthyDominant : Option PoolEntry → Bool
  | none => false
  | some e => truthy e

/-- Stack metadata of one catalog operation: the columns
`Removed from stack` / `Added to stack` of a row of `opcodes.csv`. -/
structure OpInfo where
  removed : Nat
  added : Nat
  deriving Repr, DecidableEq

/-- Modelled from the spec: the operation catalog `self._operations`
(loaded by `prepare_opcodes` / `get_selection` from `opcodes.csv` and
`selection.csv`, which live in the `common` module and the `data` directory,
neither of which is under `src/`).  Per spec section 3 and 4.1, every catalog
entry carries its stack arity-in (`removed`) and arity-out (`added`); the
duplicate/swap sub-catalog is derived by the fixed formula of spec 4.1
(depth `n` duplicate removes `n` and adds `n+1`; depth `n` swap removes and
adds `n+1`), which also matches `_opcodes_dict_push_dup_swap` in
`pg_validation.py`. -/
def operations (op : Nat) : OpInfo :=
  if op ∈ [0x01, 0x02, 0x03, 0x04, 0x05, 0x06, 0x07] then ⟨2, 1⟩
  else if op ∈ [0x08, 0x09] then ⟨3, 1⟩
  else if op = 0x0a then ⟨2, 1⟩
  else if op ∈ [0x16, 0x17, 0x18] then ⟨2, 1⟩
  else if op = 0x19 then ⟨1, 1⟩
  else if op ∈ [0x1a, 0x0b] then ⟨2, 1⟩
  else if op ∈ [0x1b, 0x1c, 0x1d] then ⟨2, 1⟩
  else if op ∈ [0x10, 0x11, 0x12, 0x13, 0x14] then ⟨2, 1⟩
  else if op = 0x15 then ⟨1, 1⟩
  else if op ∈ [0x30, 0x32, 0x33, 0x34, 0x38, 0x3a, 0x41, 0x42, 0x43,
                0x44, 0x45, 0x46, 0x47, 0x58, 0x59, 0x5a] then ⟨0, 1⟩
  else if op = 0x50 then ⟨1, 0⟩
  else if op = 0x5b then ⟨0, 0⟩
  else if 0x80 ≤ op ∧ op ≤ 0x8f then ⟨op - 0x7f, op - 0x7e⟩
  else if 0x90 ≤ op ∧ op ≤ 0x9f then ⟨op - 0x8e, op - 0x8e⟩
  else ⟨0, 0⟩

/-- `arithmetic_ops` of `_generate_random_arithmetic` (ADD .. MULMOD). -/
def arithmetic_ops : List Nat := [0x01, 0x02, 0x03, 0x04, 0x05, 0x06, 0x07, 0x08, 0x09]

/-- `exp_ops` (EXP). -/
def exp_ops : List Nat := [0x0a]

/-- `bitwise_ops` (AND OR XOR NOT). -/
def bitwise_ops : List Nat := [0x16, 0x17, 0x18, 0x19]

/-- `byte_ops` (BYTE SIGNEXTEND). -/
def byte_ops : List Nat := [0x1a, 0x0b]

/-- `shift_ops` (SHL SHR SAR). -/
def shift_ops : List Nat := [0x1b, 0x1c, 0x1d]

/-- `comparison_ops` (LT GT SLT SGT EQ). -/
def comparison_ops : List Nat := [0x10, 0x11, 0x12, 0x13, 0x14]

/-- `iszero_ops` (ISZERO). -/
def iszero_ops : List Nat := [0x15]

/-- `simple_nullary_ops` (ADDRESS .. GAS). -/
def simple_nullary_ops : List Nat :=
  [0x30, 0x32, 0x33, 0x34, 0x38, 0x3a, 0x41, 0x42, 0x43,
   0x44, 0x45, 0x46, 0x47, 0x58, 0x59, 0x5a]

/-- `pop_ops` (POP). -/
def pop_ops : List Nat := [0x50]

/-- `jumpdest_ops` (JUMPDEST). -/
def jumpdest_ops : List Nat := [0x5b]

/-- `dup_ops` (DUP1 .. DUP16). -/
def dup_ops : List Nat :=
  [0x80, 0x81, 0x82, 0x83, 0x84, 0x85, 0x86, 0x87,
   0x88, 0x89, 0x8a, 0x8b, 0x8c, 0x8d, 0x8e, 0x8f]

/-- `swap_ops` (SWAP1 .. SWAP16). -/
def swap_ops : List Nat :=
  [0x90, 0x91, 0x92, 0x93, 0x94, 0x95, 0x96, 0x97,
   0x98, 0x99, 0x9a, 0x9b, 0x9c, 0x9d, 0x9e, 0x9f]

/-- `all_ops`: the sampling universe, built exactly in source order; the
duplicate and swap classes enter as single marker entries. -/
def all_ops : List PoolEntry :=
  (arithmetic_ops ++ exp_ops ++ bitwise_ops ++ byte_ops ++ shift_ops ++
   comparison_ops ++ iszero_ops ++ simple_nullary_ops ++ pop_ops ++
   jumpdest_ops).map PoolEntry.op ++ [PoolEntry.dupClass, PoolEntry.swapClass]

/-- `random.randint(a, b)`: one draw, reduced into `[a, b]`. -/
def randRandint (σ : Nat → Nat) (i a b : Nat) : Nat × Nat :=
  (a + σ i % (b - a + 1), i + 1)

/-- `random.getrandbits(k)`: one draw, reduced into `[0, 2^k)`. -/
def randGetrandbits (σ : Nat → Nat) (i k : Nat) : Nat × Nat :=
  (σ i % 2 ^ k, i + 1)

/-- Big-endian bytes of `v`, zero-padded on the left to exactly `w` bytes:
the byte-level counterpart of the Python padding
`value = (2*push-len(value))*'0' + value` applied to `hex(value)[2:]`
(`value < 2^(8*w)` guarantees at most `w` bytes, and padding makes it
exactly `w`). -/
def beBytes : Nat → Nat → List Nat
  | 0, _ => []
  | w + 1, v => beBytes w (v / 256) ++ [v % 256]

/-- `ProgramGenerator._random_push(pushMax, randomizePush)`: an optional
`randint(1, pushMax)` for the width, one `getrandbits(8*push)` for the
value, then the bytes `PUSHpush value`, where `PUSH1` is `0x60`
(`op_num = 6 * 16 + push - 1`). -/
def _random_push (σ : Nat → Nat) (i pushMax : Nat) (rp : Bool) : List Nat × Nat :=
  let p := if rp then randRandint σ i 1 pushMax else (pushMax, i)
  let v := randGetrandbits σ p.2 (8 * p.1)
  ((0x60 + p.1 - 1) :: beBytes p.1 v.1, v.2)

/-- `ProgramGenerator._random_push_less_32()`: `PUSH1` of a
`randint(0, 31)` value. -/
def _random_push_less_32 (σ : Nat → Nat) (i : Nat) : List Nat × Nat :=
  let v := randRandint σ i 0 31
  ([0x60, v.1], v.2)

/-- The sequential operand pushes
`''.join([self._random_push(pushMax, randomizePush) for _ in range(needed_pushes)])`:
`n` pushes drawn left to right. -/
def randomPushes (σ : Nat → Nat) (pushMax : Nat) (rp : Bool) : Nat → Nat → List Nat × Nat
  | i, 0 => ([], i)
  | i, n + 1 =>
    let b := _random_push σ i pushMax rp
    let rest := randomPushes σ pushMax rp b.2 n
    (b.1 ++ rest.1, rest.2)

/-- The arguments of `_generate_random_arithmetic` (the limits are `Option`
so that Python `None` and a passed `0` are distinguishable; both are falsy). -/
structure GenArgs where
  opsLimit : Option Nat
  bytecodeLimit : Option Nat
  dominant : Option PoolEntry
  pushMax : Nat
  cleanStack : Bool
  randomizePush : Bool
  deriving Repr, DecidableEq

/-- The opcode sampling of one loop iteration (source lines 147-158): the
dominant draw (`random.random() < 0.5`, one draw, even = dominant), the
uniform `random.choice(all_ops)`, and the resolution of the `DUPclass` /
`SWAPclass` markers by a further uniform choice. -/
def drawOp (dominant : Option PoolEntry) (σ : Nat → Nat) (i : Nat) : Nat × Nat :=
  let pick : PoolEntry × Nat :=
    match dominant with
    | some d =>
      if truthy d then
        if σ i % 2 == 0 then (d, i + 1)
        else (all_ops.getD (σ (i + 1) % all_ops.length) (.op 0), i + 2)
      else (all_ops.getD (σ i % all_ops.length) (.op 0), i + 1)
    | none => (all_ops.getD (σ i % all_ops.length) (.op 0), i + 1)
  match pick with
  | (.dupClass, j) => (dup_ops.getD (σ j % dup_ops.length) 0, j + 1)
  | (.swapClass, j) => (swap_ops.getD (σ j % swap_ops.length) 0, j + 1)
  | (.op n, j) => (n, j)

/-- What one loop iteration emits and books for a resolved opcode
(source lines 160-190).  `bytes` are the emitted bytes, `pushes` the number
of operand-push instructions among them and `pops` the number of trailing
POPs (both counts are ghost bookkeeping used to state the abstract-stack
invariant of spec section 3; the theorems below tie them to `bytes`),
`neededPushes` is the Python `needed_pushes` value added to `ops_count`. -/
structure StepOut where
  bytes : List Nat
  pushes : Nat
  opNum : Nat
  pops : Nat
  neededPushes : Int
  rng : Nat
  deriving Repr, DecidableEq

/-- The emission part of one loop iteration (source lines 160-190), for an
already resolved opcode `opNum` and the pending-returns value `prev` of the
previous iteration: computes `needed_pushes`, emits the operand pushes (with
the BYTE/SIGNEXTEND and SHL/SHR/SAR special cases of lines 169-174), the
opcode byte, and the `nreturns` POPs of clean-stack mode. -/
def emitFor (pushMax : Nat) (rp cleanStack : Bool) (σ : Nat → Nat) (i prev opNum : Nat) : StepOut :=
  let operation := operations opNum
  let arity := operation.removed
  let nreturns := operation.added
  let needed : Int := if cleanStack then (arity : Int) else (arity : Int) - (prev : Int)
  let pops := if cleanStack then nreturns else 0
  let popsBytes := List.replicate pops 0x50
  if opNum ∈ byte_ops then
    let p1 := if cleanStack || prev == 0 then _random_push σ i pushMax rp else ([], i)
    let p2 := _random_push_less_32 σ p1.2
    { bytes := p1.1 ++ p2.1 ++ [opNum] ++ popsBytes,
      pushes := (if cleanStack || prev == 0 then 1 else 0) + 1,
      opNum := opNum, pops := pops, neededPushes := needed, rng := p2.2 }
  else if opNum ∈ shift_ops then
    let p1 := if cleanStack || prev == 0 then _random_push σ i pushMax rp else ([], i)
    let p2 := _random_push σ p1.2 1 false
    { bytes := p1.1 ++ p2.1 ++ [opNum] ++ popsBytes,
      pushes := (if cleanStack || prev == 0 then 1 else 0) + 1,
      opNum := opNum, pops := pops, neededPushes := needed, rng := p2.2 }
  else
    let ps := randomPushes σ pushMax rp i needed.toNat
    { bytes := ps.1 ++ [opNum] ++ popsBytes,
      pushes := needed.toNat,
      opNum := opNum, pops := pops, neededPushes := needed, rng := ps.2 }

/-- The loop state of `_generate_random_arithmetic`: the emitted bytes, the
`ops_count` counter, the `previous_nreturns` carry (`0` and unread in
clean-stack mode, where Python leaves the variable undefined), the ghost
abstract-stack counter of spec section 3 ("pending-returns": values left on
the notional stack), and the random-draw index. -/
structure GenState where
  bytecode : List Nat
  ops_count : Int
  previous_nreturns : Nat
  stack : Int
  rng : Nat
  deriving Repr, DecidableEq

/-- The state at loop entry: empty bytecode, `ops_count = 0`,
pending-returns 0. -/
def initState : GenState :=
  { bytecode := [], ops_count := 0, previous_nreturns := 0, stack := 0, rng := 0 }

/-- One full iteration of the `while` loop of `_generate_random_arithmetic`:
draw and resolve the opcode, emit, and accumulate
(`ops_count += needed_pushes`, `ops_count += 1`, and `ops_count += nreturns`
with the POPs of clean-stack mode).  The ghost `stack` counter adds the
emitted pushes, removes the operation's arity-in, adds its arity-out and
removes the emitted POPs. -/
def genStep (a : GenArgs) (σ : Nat → Nat) (st : GenState) : GenState :=
  let d := drawOp a.dominant σ st.rng
  let o := emitFor a.pushMax a.randomizePush a.cleanStack σ d.2 st.previous_nreturns d.1
  let nreturns := (operations o.opNum).added
  { bytecode := st.bytecode ++ o.bytes,
    ops_count := st.ops_count + o.neededPushes + 1 + (o.pops : Int),
    previous_nreturns := if a.cleanStack then 0 else nreturns,
    stack := st.stack + (o.pushes : Int) - ((operations o.opNum).removed : Int)
               + (nreturns : Int) - (o.pops : Int),
    rng := o.rng }

/-- Python truthiness of an optional integer limit (`None` and `0` falsy). -/
def falsy : Option Nat → Bool
  | none => true
  | some n => n == 0

/-- The `while` condition of source line 146:
`(not opsLimit or ops_count < opsLimit) and
(not bytecodeLimit or len(bytecode) < 2*bytecodeLimit)`, where
`len(bytecode)` counts hex characters, i.e. twice the number of bytes. -/
def loopCond (opsLimit bytecodeLimit : Option Nat) (st : GenState) : Bool :=
  (falsy opsLimit || st.ops_count < (opsLimit.getD 0 : Int)) &&
  (falsy bytecodeLimit || 2 * st.bytecode.length < 2 * bytecodeLimit.getD 0)

/-- The `while` loop on explicit fuel: the condition is re-checked before
every iteration and the loop stops the moment it fails. -/
def genLoop (a : GenArgs) (σ : Nat → Nat) : Nat → GenState → GenState
  | 0, st => st
  | fuel + 1, st =>
    if loopCond a.opsLimit a.bytecodeLimit st then genLoop a σ fuel (genStep a σ st)
    else st

/-- `ProgramGenerator._generate_random_arithmetic`: the push-width guard
(`if pushMax < 1 or pushMax > 32: raise ValueError`), the dominant guard
(`if dominant and dominant not in all_ops: raise ValueError`), then the
loop from the initial state.  An error result carries no bytecode. -/
def _generate_random_arithmetic (a : GenArgs) (σ : Nat → Nat) (fuel : Nat) :
    Except PyError GenState :=
  if a.pushMax < 1 ∨ a.pushMax > 32 then .error .valueError
  else
    match a.dominant with
    | some d =>
      if truthy d ∧ d ∉ all_ops then .error .valueError
      else .ok (genLoop a σ fuel initState)
    | none => .ok (genLoop a σ fuel initState)

/-- `ProgramGenerator.generate` (limit handling only, a single program):
`if not opsLimit and not bytecodeLimit: opsLimit = 100`, then the dispatch
to `_generate_random_arithmetic`.  The `count` batching, the
`randomizeOpsLimit` re-draw and the CSV printing are output-side
functionality outside the claims. -/
def generate (a : GenArgs) (σ : Nat → Nat) (fuel : Nat) : Except PyError GenState :=
  let a' := if falsy a.opsLimit && falsy a.bytecodeLimit
            then { a with opsLimit := some 100 } else a
  _generate_random_arithmetic a' σ fuel

/-- Instruction counter over a byte list, with a pending immediate-skip
counter: a byte in `[0x60, 0x7f]` is `PUSHk` with `k = byte - 0x5f` and
carries `k` immediate bytes that are data, not instructions. -/
def instrCountAux : Nat → List Nat → Nat
  | _, [] => 0
  | skip + 1, _ :: rest => instrCountAux skip rest
  | 0, b :: rest =>
    1 + instrCountAux (if 0x60 ≤ b ∧ b ≤ 0x7f then b - 0x5f else 0) rest

/-- Number of instructions encoded by a byte list. -/
def instrCount (l : List Nat) : Nat := instrCountAux 0 l

/-- Numeric value of one lowercase hexadecimal digit. -/
def hexVal (c : Char) : Nat :=
  if 97 ≤ c.toNat then c.toNat - 87 else c.toNat - 48

/-- Bytes of a string of hexadecimal digit pairs. -/
def hexToBytes : List Char → List Nat
  | a :: b :: rest => (16 * hexVal a + hexVal b) :: hexToBytes rest
  | _ => []

/-- Bytes of a bytecode hex string. -/
def strBytes (s : String) : List Nat := hexToBytes s.data

/-- A catalog row as used by the marginal generator: `Mnemonic`, the
`Value` hex string (e.g. `"0xf1"`), and the `Removed from stack` arity
consulted by `arity(operation)`. -/
structure MOperation where
  Mnemonic : String
  Value : String
  removed : Nat
  deriving Repr, DecidableEq

/-- Modelled from the spec: `arity` lives in the `common` module, which is
not under `src/`; per spec sections 3 and 4.1 it reads the operation's
stack-arity-in from its catalog row. -/
def arity (op : MOperation) : Nat := op.removed

/-- The Python slice `operation['Value'][2:4]`: the two hex characters of
the opcode byte. -/
def opByteHex (op : MOperation) : String := (op.Value.drop 2).take 2

/-- Python string repetition `s * n`. -/
def srep (s : String) : Nat → String
  | 0 => ""
  | n + 1 => s ++ srep s n

/-- Modelled from the spec: `constants.MAX_INSTRUCTIONS`, the fixed global
ceiling on the instruction count of one program (spec sections 4.2 and 7);
the `constants` module is not under `src/` and the spec does not name the
value, so a definite value is fixed here; no theorem below depends on it. -/
def MAX_INSTRUCTIONS : Nat := 500

/-- Lowercase hexadecimal digit character. -/
def hexChar (d : Nat) : Char := "0123456789abcdef".data.getD d '0'

/-- Digits of `n` in base 16, most significant first. -/
def hexDigits (n : Nat) : List Char :=
  if _h : n < 16 then [hexChar n]
  else hexDigits (n / 16) ++ [hexChar (n % 16)]
termination_by n
decreasing_by
  exact Nat.div_lt_self (by omega) (by omega)

/-- Python `hex(n)[2:]` (no padding). -/
def hexStr (n : Nat) : String := ⟨hexDigits n⟩

/-- `_generate_create_program` (CREATE): deployment blob, `MAX_INSTRUCTIONS`
empty pushes, three operand pushes per performed CREATE, `op_count` copies
of CREATE+POP, then POPs for the remaining empty pushes. -/
def _generate_create_program (create_operation : MOperation) (op_count : Nat) : String :=
  let account_code := "6d6460016001016000526005601cf3600052"
  let empty_pushes := srep "6000" MAX_INSTRUCTIONS
  let single_op_pushes := srep "600d60126000" op_count
  let opcodes_with_pops := srep (opByteHex create_operation ++ "50") op_count
  let pops := srep "50" (MAX_INSTRUCTIONS - op_count)
  account_code ++ empty_pushes ++ single_op_pushes ++ opcodes_with_pops ++ pops

/-- `_generate_extcode_program` (EXTCODEHASH / EXTCODESIZE). -/
def _generate_extcode_program (create_operation : MOperation) (op_count max_op_count : Nat) : String :=
  let empty_pushes := srep "60ff" MAX_INSTRUCTIONS
  let account_code := "6c63ffffffff60005260046000f3600052600d60006000f0"
  let opcode_args := srep "80" (max_op_count - 1)
  let opcodes_with_pops := srep (opByteHex create_operation ++ "50") op_count
  let pops := srep "50" (MAX_INSTRUCTIONS + max_op_count - op_count)
  empty_pushes ++ account_code ++ opcode_args ++ opcodes_with_pops ++ pops

/-- `_generate_extcodecopy_program` (EXTCODECOPY). -/
def _generate_extcodecopy_program (create_operation : MOperation) (op_count max_op_count : Nat) : String :=
  let empty_pushes := srep "60ff" 5
  let account_deployment_code := "7f7fffffffffffffffffffffffffffffffffffffffffffffffffffffffffffffff6000527fff60005260206000f30000000000000000000000000000000000000000000000602052602960006000f0"
  let opcode_args := srep "60206000600083" max_op_count
  let opcodes := srep (opByteHex create_operation) op_count
  let pops := srep "50" 5
  empty_pushes ++ account_deployment_code ++ opcode_args ++ opcodes ++ pops

/-- The `single_call` string of `_generate_call_program`: the real
per-invocation sequence for CALL / STATICCALL / DELEGATECALL. -/
def single_call (m : String) : String :=
  if m = "CALL" then "86868686868686f150"
  else if m = "STATICCALL" then "858585858585fa50"
  else if m = "DELEGATECALL" then "858585858585f450"
  else ""

/-- The `noop` string of `_generate_call_program`: per the source comment it
"contains the same series of opcodes as those invoked by single_call",
replayed inline instead of entering the deployed context. -/
def noop (m : String) : String :=
  if m = "CALL" then "8686868686868660015860060157fe5b50"
  else if m = "STATICCALL" then "85858585858560015860060157fe5b50"
  else if m = "DELEGATECALL" then "85858585858560015860060157fe5b50"
  else ""

/-- `_generate_call_program` (CALL / STATICCALL / DELEGATECALL). -/
def _generate_call_program (create_operation : MOperation) (op_count max_op_count : Nat) : String :=
  let dummy_pushes := srep "60ff" 5
  let account_deployment_code := "716860015860060157fe5b60005260096017f36000526012600e6000f05f5f60205f5f8561ffff"
  let calls := srep (single_call create_operation.Mnemonic) op_count
  let noops := srep (noop create_operation.Mnemonic) (max_op_count - op_count)
  let dummy_pops := srep "50" 5
  dummy_pushes ++ account_deployment_code ++ calls ++ noops ++ dummy_pops

/-- `_generate_log_program` (LOG0 .. LOG4). -/
def _generate_log_program (log_operation : MOperation) (op_count max_op_count : Nat) : String :=
  let memory := "7f" ++ srep "ff" 32 ++ "6000" ++ "52"
  let arguments := srep (srep "60ff" (arity log_operation - 2) ++ "60206000") max_op_count
  let logs := srep (opByteHex log_operation) op_count
  memory ++ arguments ++ logs

/-- `_generate_mcopy_program` (MCOPY). -/
def _generate_mcopy_program (mcopy_operation : MOperation) (op_count max_op_count : Nat) : String :=
  let memory := "60ff600052"
  let arguments := srep "6001601f6000" max_op_count
  memory ++ arguments ++ srep (opByteHex mcopy_operation) op_count

/-- `_generate_keccak256_program` (KECCAK256). -/
def _generate_keccak256_program (mcopy_operation : MOperation) (op_count max_op_count : Nat) : String :=
  let memory := "7f" ++ srep "ff" 32 ++ "5f52"
  let empty_pushes := srep "5f" max_op_count
  let arguments := srep "60206000" max_op_count
  let keccaks_with_pops := srep (opByteHex mcopy_operation ++ "50") op_count
  let pop_leftover := srep "50" (max_op_count - op_count)
  memory ++ empty_pushes ++ arguments ++ keccaks_with_pops ++ pop_leftover

/-- `_generate_tload_program` (TLOAD). -/
def _generate_tload_program (tload_operation : MOperation) (op_count max_op_count : Nat) : String :=
  let prepare := "60ff60ff5d"
  let arguments := srep "60ff" max_op_count
  prepare ++ arguments ++ srep (opByteHex tload_operation ++ "50") op_count
    ++ srep "50" (max_op_count - op_count)

/-- The `no_op_subcontext_code` of `_generate_tload_ext_program`: the
deployed no-op sub-program (a lone `PUSH1 ff`). -/
def tload_ext_no_op_subcontext_code : String := "60ff"

/-- The `op_subcontext_code` of `_generate_tload_ext_program`: the deployed
real sub-program, the no-op sub-program followed by the TLOAD byte. -/
def tload_ext_op_subcontext_code (tload_operation : MOperation) : String :=
  tload_ext_no_op_subcontext_code ++ opByteHex tload_operation

/-- The `no_op_calls` per-invocation sequence of
`_generate_tload_ext_program` (source line 264). -/
def tload_ext_no_op_call : String := "600060006000600060008561fffff150"

/-- The `op_calls` per-invocation sequence of `_generate_tload_ext_program`
(source line 265). -/
def tload_ext_op_call : String := "600060006000600060008561fffff150"

/-- `_generate_tload_ext_program` (TLOAD_EXT): deploy the real and the
no-op sub-contracts, then `max_op_count - op_count` no-op invocations and
`op_count` real invocations. -/
def _generate_tload_ext_program (tload_operation : MOperation) (op_count max_op_count : Nat) : String :=
  let no_op_deployment_code :=
    "6f60ff60ff5d61" ++ tload_ext_no_op_subcontext_code ++ "6000526002601ef3600052601060106000f0"
  let op_deployment_code :=
    "7060ff60ff5d62" ++ tload_ext_op_subcontext_code tload_operation ++ "6000526003601df36000526011600f6000f0"
  let op_address_store := "60ff52"
  let op_address_load := "60ff51"
  let no_op_calls := srep tload_ext_no_op_call (max_op_count - op_count)
  let op_calls := srep tload_ext_op_call op_count
  op_deployment_code ++ op_address_store ++ no_op_deployment_code ++ no_op_calls
    ++ op_address_load ++ op_calls

/-- The per-`v` accumulation `arguments += '60' + hex(v + 16)[2:] + '6001'`
of `_generate_tstore_program`. -/
def tstore_arguments : Nat → String
  | 0 => ""
  | v + 1 => tstore_arguments v ++ ("60" ++ hexStr (v + 16) ++ "6001")

/-- `_generate_tstore_program` (TSTORE). -/
def _generate_tstore_program (tstore_operation : MOperation) (op_count max_op_count : Nat) : String :=
  tstore_arguments max_op_count ++ srep (opByteHex tstore_operation) op_count

/-- The per-`v` accumulation of `_generate_tstore0_program`. -/
def tstore0_arguments : Nat → String
  | 0 => ""
  | v + 1 => tstore0_arguments v ++ ("60" ++ hexStr (v + 16) ++ "60" ++ hexStr (v + 16))

/-- `_generate_tstore0_program` (TSTORE0). -/
def _generate_tstore0_program (tstore_operation : MOperation) (op_count max_op_count : Nat) : String :=
  tstore0_arguments max_op_count ++ srep (opByteHex tstore_operation) op_count

/-- The `no_op_subcontext_code` of `_generate_tstore_ext_program`. -/
def tstore_ext_no_op_subcontext_code : String := "60ff5c60010160ff"

/-- The `op_subcontext_code` of `_generate_tstore_ext_program`: the no-op
sub-program followed by the TSTORE byte. -/
def tstore_ext_op_subcontext_code (tstore_operation : MOperation) : String :=
  tstore_ext_no_op_subcontext_code ++ opByteHex tstore_operation

/-- The `no_op_calls` per-invocation sequence of
`_generate_tstore_ext_program` (source line 309). -/
def tstore_ext_no_op_call : String := "600060006000600060008561fffff150"

/-- The `op_calls` per-invocation sequence of `_generate_tstore_ext_program`
(source line 310). -/
def tstore_ext_op_call : String := "600060006000600060008561fffff150"

/-- `_generate_tstore_ext_program` (TSTORE_EXT). -/
def _generate_tstore_ext_program (tstore_operation : MOperation) (op_count max_op_count : Nat) : String :=
  let no_op_deployment_code :=
    "7067" ++ tstore_ext_no_op_subcontext_code ++ "60005260086018f36000526011600f6000f0"
  let op_deployment_code :=
    "7168" ++ tstore_ext_op_subcontext_code tstore_operation ++ "60005260096017f36000526012600e6000f0"
  let op_address_store := "60ff52"
  let op_address_load := "60ff51"
  let no_op_calls := srep tstore_ext_no_op_call (max_op_count - op_count)
  let op_calls := srep tstore_ext_op_call op_count
  op_deployment_code ++ op_address_store ++ no_op_deployment_code ++ no_op_calls
    ++ op_address_load ++ op_calls

/-- The `no_op_subcontext_code` of `_generate_subcontext_exit_program`
(REVERT / RETURN). -/
def subcontext_exit_no_op_subcontext_code : String := "60ff60005260026018"

/-- The `op_subcontext_code` of `_generate_subcontext_exit_program`: the
no-op sub-program followed by the REVERT / RETURN byte. -/
def subcontext_exit_op_subcontext_code (operation : MOperation) : String :=
  subcontext_exit_no_op_subcontext_code ++ opByteHex operation

/-- The `no_op_calls` per-invocation sequence of
`_generate_subcontext_exit_program` (source line 328). -/
def subcontext_exit_no_op_call : String := "60006000600060008461fffff450"

/-- The `op_calls` per-invocation sequence of
`_generate_subcontext_exit_program` (source line 329). -/
def subcontext_exit_op_call : String := "60006000600060008461fffff450"

/-- `_generate_subcontext_exit_program` (REVERT / RETURN). -/
def _generate_subcontext_exit_program (operation : MOperation) (op_count max_op_count : Nat) : String :=
  let op_deployment_code :=
    "7269" ++ subcontext_exit_op_subcontext_code operation ++ "600052600a6016f36000526013600d6000f0"
  let no_op_deployment_code :=
    "7168" ++ subcontext_exit_no_op_subcontext_code ++ "60005260096017f36000526012600e6000f0"
  let op_address_store := "60ff52"
  let op_address_load := "60ff51"
  let no_op_calls := srep subcontext_exit_no_op_call (max_op_count - op_count)
  let op_calls := srep subcontext_exit_op_call op_count
  op_deployment_code ++ op_address_store ++ no_op_deployment_code ++ no_op_calls
    ++ op_address_load ++ op_calls

/-- Modelled from the spec: `generate_single_marginal` lives in the `common`
module, which is not under `src/`.  Per spec section 4.2 (padding-to-constant
family) it emits the given operand pushes for each potential invocation up
to the global ceiling, then `op_count` copies of operation+discard, then
discards for the unused operands.  No theorem below depends on it; it only
completes the dispatch of `_generate_single_program`. -/
def generate_single_marginal (single_op_pushes : List String) (operation : MOperation)
    (op_count : Nat) : String :=
  srep (String.join single_op_pushes) MAX_INSTRUCTIONS
    ++ srep (opByteHex operation ++ "50") op_count
    ++ srep "50" (MAX_INSTRUCTIONS - op_count)

/-- The `Program` value object of `pg_marginal.py`. -/
structure MarginalProgram where
  bytecode : String
  opcode : String
  op_count : Nat
  deriving Repr, DecidableEq

/-- `ProgramGenerator._generate_single_program`: the
`assert op_count <= constants.MAX_INSTRUCTIONS` guard (an error result
carries no bytecode), then the mnemonic dispatch to the template
strategies. -/
def _generate_single_program (operation : MOperation) (op_count max_op_count : Nat) :
    Except PyError MarginalProgram :=
  if MAX_INSTRUCTIONS < op_count then .error .assertionError
  else .ok
    { bytecode :=
        if operation.Mnemonic = "CREATE" then
          _generate_create_program operation op_count
        else if operation.Mnemonic ∈ ["EXTCODEHASH", "EXTCODESIZE"] then
          _generate_extcode_program operation op_count max_op_count
        else if operation.Mnemonic = "EXTCODECOPY" then
          _generate_extcodecopy_program operation op_count max_op_count
        else if operation.Mnemonic ∈ ["CALL", "STATICCALL", "DELEGATECALL"] then
          _generate_call_program operation op_count max_op_count
        else if operation.Mnemonic ∈ ["LOG0", "LOG1", "LOG2", "LOG3", "LOG4"] then
          _generate_log_program operation op_count max_op_count
        else if operation.Mnemonic ∈ ["REVERT", "RETURN"] then
          _generate_subcontext_exit_program operation op_count max_op_count
        else if operation.Mnemonic = "MCOPY" then
          _generate_mcopy_program operation op_count max_op_count
        else if operation.Mnemonic = "KECCAK256" then
          _generate_keccak256_program operation op_count max_op_count
        else if operation.Mnemonic = "TLOAD" then
          _generate_tload_program operation op_count max_op_count
        else if operation.Mnemonic = "TLOAD_EXT" then
          _generate_tload_ext_program operation op_count max_op_count
        else if operation.Mnemonic = "TSTORE" then
          _generate_tstore_program operation op_count max_op_count
        else if operation.Mnemonic = "TSTORE0" then
          _generate_tstore0_program operation op_count max_op_count
        else if operation.Mnemonic = "TSTORE_EXT" then
          _generate_tstore_ext_program operation op_count max_op_count
        else
          generate_single_marginal (List.replicate (arity operation) "6003") operation op_count,
      opcode := operation.Mnemonic, op_count := op_count }

/-- Modelled from the spec: the catalog row of CREATE (`0xf0`, arity-in 3). -/
def CREATE_OP : MOperation := ⟨"CREATE", "0xf0", 3⟩

/-- Modelled from the spec: the catalog row of EXTCODESIZE (`0x3b`,
arity-in 1). -/
def EXTCODESIZE_OP : MOperation := ⟨"EXTCODESIZE", "0x3b", 1⟩

/-- Modelled from the spec: the catalog row of CALL (`0xf1`, arity-in 7). -/
def CALL_OP : MOperation := ⟨"CALL", "0xf1", 7⟩

/-- Modelled from the spec: the row of the TLOAD_EXT pseudo-operation
(TLOAD measured through an external contract; opcode byte `0x5c`). -/
def TLOAD_EXT_OP : MOperation := ⟨"TLOAD_EXT", "0x5c", 1⟩

/-- Modelled from the spec: the row of the TSTORE_EXT pseudo-operation
(TSTORE measured through an external contract; opcode byte `0x5d`). -/
def TSTORE_EXT_OP : MOperation := ⟨"TSTORE_EXT", "0x5d", 2⟩

/-- Modelled from the spec: the catalog row of REVERT (`0xfd`, arity-in 2). -/
def REVERT_OP : MOperation := ⟨"REVERT", "0xfd", 2⟩

/-- One Python list swap `x[i], x[j] = x[j], x[i]` (out-of-range indices
leave the list unchanged, which Fisher-Yates never produces). -/
def swapAt (l : List Nat) (i j : Nat) : List Nat :=
  (l.set i (l.getD j 0)).set j (l.getD i 0)

/-- The loop of `random.shuffle(x)` (Fisher-Yates): for `i` from
`len(x) - 1` down to `1`, draw `j = _randbelow(i + 1)` — modelled as one
stream draw reduced into `[0, i]` — and swap `x[i]` with `x[j]`. -/
def shuffleSteps (σ : Nat → Nat) : Nat → Nat → List Nat → List Nat × Nat
  | 0, idx, l => (l, idx)
  | i + 1, idx, l =>
    let j := σ idx % (i + 1 + 1)
    shuffleSteps σ i (idx + 1) (swapAt l (i + 1) j)

/-- `random.shuffle(x)`: `len(x) - 1` Fisher-Yates steps, one stream draw
each. -/
def pyShuffle (σ : Nat → Nat) (idx : Nat) (l : List Nat) : List Nat × Nat :=
  shuffleSteps σ (l.length - 1) idx l

/-- Python `range(0, stop, step)` for a positive step:
`ceil(stop / step)` values `0, step, 2*step, ...`. -/
def pyRange (stop step : Nat) : List Nat :=
  List.range' 0 ((stop + step - 1) / step) step

/-- `ProgramGenerator._do_generate` of `pg_marginal.py` (source lines
80-95): when `opcode` is truthy keep only the operations with that
mnemonic; build `op_counts = range(0, max_op_count + 1, step_op_count)`
(Python `range` raises a `ValueError` on a zero step); shuffle the counts
with the process-wide stream when `shuffle_counts`; then build one program
per (operation, op_count) pair, operations outermost, aborting on the
first failing assertion.  Returns the programs and the advanced draw
index. -/
def _do_generate (self_operations : List MOperation) (opcode : Option String)
    (max_op_count : Nat) (shuffle_counts : Bool) (step_op_count : Nat)
    (σ : Nat → Nat) (idx : Nat) : Except PyError (List MarginalProgram × Nat) :=
  let ops := match opcode with
    | some m => if m = "" then self_operations
                else self_operations.filter (fun o => o.Mnemonic == m)
    | none => self_operations
  if step_op_count = 0 then .error .valueError
  else
    let r :=
      let oc := pyRange (max_op_count + 1) step_op_count
      if shuffle_counts then pyShuffle σ idx oc else (oc, idx)
    match ((ops.map (fun operation => r.1.map (fun c => (operation, c)))).flatten).mapM
        (fun oc => _generate_single_program oc.1 oc.2 max_op_count) with
    | .error e => .error e
    | .ok programs => .ok (programs, r.2)

/-! ### Helper lemmas -/

theorem srep_length (s : String) : ∀ n, (srep s n).length = n * s.length
  | 0 => by simp [srep]
  | n + 1 => by
    rw [srep, String.length_append, srep_length s n]
    ring

theorem beBytes_length : ∀ (w v : Nat), (beBytes w v).length = w
  | 0, _ => rfl
  | w + 1, v => by
    rw [beBytes, List.length_append, beBytes_length w]
    rfl

theorem instrCountAux_skip : ∀ (l rest : List Nat),
    instrCountAux l.length (l ++ rest) = instrCountAux 0 rest
  | [], rest => rfl
  | a :: t, rest => by
    rw [List.length_cons, List.cons_append]
    show instrCountAux (t.length + 1) (a :: (t ++ rest)) = instrCountAux 0 rest
    rw [show instrCountAux (t.length + 1) (a :: (t ++ rest))
          = instrCountAux t.length (t ++ rest) from rfl]
    exact instrCountAux_skip t rest

theorem instrCountAux_push (w v : Nat) (rest : List Nat) (h1 : 1 ≤ w) (h2 : w ≤ 32) :
    instrCountAux 0 (((0x60 + w - 1) :: beBytes w v) ++ rest) = 1 + instrCountAux 0 rest := by
  have hb : 0x60 ≤ 0x60 + w - 1 ∧ 0x60 + w - 1 ≤ 0x7f := by omega
  have hskip : 0x60 + w - 1 - 0x5f = w := by omega
  rw [List.cons_append]
  show 1 + instrCountAux (if 0x60 ≤ 0x60 + w - 1 ∧ 0x60 + w - 1 ≤ 0x7f
        then 0x60 + w - 1 - 0x5f else 0) (beBytes w v ++ rest) = 1 + instrCountAux 0 rest
  have hs := instrCountAux_skip (beBytes w v) rest
  rw [beBytes_length w v] at hs
  rw [if_pos hb, hskip, hs]

theorem instrCountAux_random_push (σ : Nat → Nat) (i pushMax : Nat) (rp : Bool)
    (rest : List Nat) (h1 : 1 ≤ pushMax) (h2 : pushMax ≤ 32) :
    instrCountAux 0 ((_random_push σ i pushMax rp).1 ++ rest) = 1 + instrCountAux 0 rest := by
  cases rp with
  | false =>
    exact instrCountAux_push pushMax _ rest h1 h2
  | true =>
    have hmod : σ i % (pushMax - 1 + 1) < pushMax := by
      rw [show pushMax - 1 + 1 = pushMax from by omega]
      exact Nat.mod_lt _ (by omega)
    simp only [_random_push, randRandint, if_true]
    exact instrCountAux_push _ _ rest (by omega) (by omega)

theorem instrCountAux_randomPushes (σ : Nat → Nat) (pushMax : Nat) (rp : Bool)
    (h1 : 1 ≤ pushMax) (h2 : pushMax ≤ 32) :
    ∀ (n i : Nat) (rest : List Nat),
      instrCountAux 0 ((randomPushes σ pushMax rp i n).1 ++ rest) = n + instrCountAux 0 rest
  | 0, i, rest => by simp [randomPushes]
  | n + 1, i, rest => by
    show instrCountAux 0
        (((_random_push σ i pushMax rp).1
          ++ (randomPushes σ pushMax rp (_random_push σ i pushMax rp).2 n).1) ++ rest)
      = (n + 1) + instrCountAux 0 rest
    rw [List.append_assoc, instrCountAux_random_push σ i pushMax rp _ h1 h2,
        instrCountAux_randomPushes σ pushMax rp h1 h2 n _ rest]
    omega

theorem instrCountAux_nonpush (b : Nat) (rest : List Nat) (h : ¬(0x60 ≤ b ∧ b ≤ 0x7f)) :
    instrCountAux 0 (b :: rest) = 1 + instrCountAux 0 rest := by
  show 1 + instrCountAux (if 0x60 ≤ b ∧ b ≤ 0x7f then b - 0x5f else 0) rest
      = 1 + instrCountAux 0 rest
  rw [if_neg h]

theorem instrCountAux_pops : ∀ (k : Nat) (rest : List Nat),
    instrCountAux 0 (List.replicate k 0x50 ++ rest) = k + instrCountAux 0 rest
  | 0, rest => by simp
  | k + 1, rest => by
    rw [List.replicate_succ, List.cons_append, instrCountAux_nonpush _ _ (by omega),
        instrCountAux_pops k rest]
    omega

theorem instrCountAux_push1 (v : Nat) (rest : List Nat) :
    instrCountAux 0 (0x60 :: v :: rest) = 1 + instrCountAux 0 rest := by
  show 1 + instrCountAux (if 0x60 ≤ 0x60 ∧ 0x60 ≤ 0x7f then 0x60 - 0x5f else 0) (v :: rest)
      = 1 + instrCountAux 0 rest
  rw [if_pos (by omega)]
  rfl

theorem create_program_length (n : Nat) (h : n ≤ MAX_INSTRUCTIONS) :
    (_generate_create_program CREATE_OP n).length
      = 6 * MAX_INSTRUCTIONS + 36 + 14 * n := by
  unfold _generate_create_program
  simp only [String.length_append, srep_length]
  rw [show ("6d6460016001016000526005601cf3600052" : String).length = 36 from rfl,
      show ("6000" : String).length = 4 from rfl,
      show ("600d60126000" : String).length = 12 from rfl,
      show (opByteHex CREATE_OP).length = 2 from rfl,
      show ("50" : String).length = 2 from rfl]
  omega

theorem extcode_program_length (n max : Nat) (h : n ≤ MAX_INSTRUCTIONS + max) :
    (_generate_extcode_program EXTCODESIZE_OP n max).length
      = 6 * MAX_INSTRUCTIONS + 48 + 2 * (max - 1) + 2 * max + 2 * n := by
  unfold _generate_extcode_program
  simp only [String.length_append, srep_length]
  rw [show ("60ff" : String).length = 4 from rfl,
      show ("6c63ffffffff60005260046000f3600052600d60006000f0" : String).length = 48 from rfl,
      show ("80" : String).length = 2 from rfl,
      show (opByteHex EXTCODESIZE_OP).length = 2 from rfl,
      show ("50" : String).length = 2 from rfl]
  omega

theorem tload_ext_program_length (n max : Nat) (h : n ≤ max) :
    (_generate_tload_ext_program TLOAD_EXT_OP n max).length = 122 + 32 * max := by
  unfold _generate_tload_ext_program
  simp only [String.length_append, srep_length]
  rw [show ("7060ff60ff5d62" : String).length = 14 from rfl,
      show (tload_ext_op_subcontext_code TLOAD_EXT_OP).length = 6 from rfl,
      show ("6000526003601df36000526011600f6000f0" : String).length = 36 from rfl,
      show ("60ff52" : String).length = 6 from rfl,
      show ("6f60ff60ff5d61" : String).length = 14 from rfl,
      show (tload_ext_no_op_subcontext_code : String).length = 4 from rfl,
      show ("6000526002601ef3600052601060106000f0" : String).length = 36 from rfl,
      show (tload_ext_no_op_call : String).length = 32 from rfl,
      show ("60ff51" : String).length = 6 from rfl,
      show (tload_ext_op_call : String).length = 32 from rfl]
  omega

/-- The constant-zero random stream (every draw resolves to the first
admissible outcome). -/
def sigma0 : Nat → Nat := fun _ => 0

/-- Arguments of a concrete run with `opsLimit = 1` (truthy), no bytecode
limit, no dominant, `push = 32`, `cleanStack = false`,
`randomizePush = false`. -/
def aC3 : GenArgs := ⟨some 1, none, none, 32, false, false⟩

/-- A stream whose draws resolve, in order, to: `DUPclass`, `DUP1`, a zero
push value, `ISZERO`, `ADD`, a zero push value. -/
def sigC9 : Nat → Nat := fun i => [43, 0, 0, 24, 0, 0].getD i 0

/-- Arguments of a concrete run with `opsLimit = 3`, `cleanStack = false`. -/
def aC9 : GenArgs := ⟨some 3, none, none, 32, false, false⟩

/-- A stream whose draws resolve, in order, to: `DUPclass`, `DUP1`, a zero
push value, `BYTE`, a zero byte-index value. -/
def sigC5 : Nat → Nat := fun i => [43, 0, 0, 14, 0, 0].getD i 0

/-- Arguments of a concrete run with `opsLimit = 3`, `cleanStack = false`. -/
def aC5 : GenArgs := ⟨some 3, none, none, 32, false, false⟩

/-- Arguments with `dominant = 0`: the opcode `0x00` (STOP) is not in the
sampling universe, and the integer `0` is falsy in Python. -/
def aD0 : GenArgs := ⟨some 1, none, some (.op 0), 32, false, false⟩

/-- Arguments of a concrete clean-stack run. -/
def aCleanArgs : GenArgs := ⟨some 5, none, none, 3, true, false⟩

/-- Arguments with an out-of-range push width `0`. -/
def aBadPush : GenArgs := ⟨some 1, none, none, 0, false, false⟩

/-- Arguments with a truthy dominant `0x4d` that is not in the sampling
universe. -/
def aBadDom : GenArgs := ⟨some 1, none, some (.op 0x4d), 32, false, false⟩

/-- Arguments of the concrete determinism run. -/
def aC8 : GenArgs := ⟨some 2, some 40, none, 4, true, true⟩

/-- Arguments with `opsLimit = 0` and no bytecode limit (both falsy). -/
def aC10 : GenArgs := ⟨some 0, none, none, 32, false, false⟩

theorem emitFor_clean_stack (pushMax : Nat) (rp : Bool) (σ : Nat → Nat) (i prev opNum : Nat) :
    ((emitFor pushMax rp true σ i prev opNum).pushes : Int)
      - ((operations opNum).removed : Int) + ((operations opNum).added : Int)
      - ((emitFor pushMax rp true σ i prev opNum).pops : Int) = 0 := by
  by_cases hb : opNum ∈ byte_ops
  · have h2 : (operations opNum).removed = 2 := by
      fin_cases hb <;> rfl
    simp only [emitFor, hb, if_pos, if_true, Bool.true_or, ite_true, h2]
    omega
  · by_cases hs : opNum ∈ shift_ops
    · have h2 : (operations opNum).removed = 2 := by
        fin_cases hs <;> rfl
      simp only [emitFor, hb, hs, if_pos, if_true, if_false, ite_true, ite_false, Bool.true_or, h2]
      omega
    · simp only [emitFor, hb, hs, if_true, if_false, ite_true, ite_false, Bool.true_or]
      omega

/-! ### Claims -/

/-- Claim C3, counterexample: with `ops_limit = 1` (and no bytecode limit)
the run whose first draw is ADD performs one iteration that pushes two
operands and the opcode, and returns a final instruction count of `3`,
which exceeds `ops_limit = 1` — refuting "the returned final instruction
count never exceeds ops_limit". -/
theorem C3_counterexample :
    _generate_random_arithmetic aC3 sigma0 5 = .ok (genLoop aC3 sigma0 5 initState)
    ∧ aC3.opsLimit = some 1
    ∧ (genLoop aC3 sigma0 5 initState).ops_count = 3
    ∧ ¬ ((genLoop aC3 sigma0 5 initState).ops_count ≤ (1 : Int)) :=
  ⟨rfl, rfl, by decide, by decide⟩

/-- Claim C3, amended: the loop checks both limits before every iteration
and stops the moment one fails, so the final state is either untouched or
the result of one `genStep` from a state that still satisfied both limits;
the final instruction count and byte length can therefore exceed the limits
only by the last iteration's contribution (and they genuinely can exceed
them, see the counterexample). -/
theorem C3_theorem : ∀ (a : GenArgs) (σ : Nat → Nat) (fuel : Nat) (st : GenState),
    genLoop a σ fuel st = st ∨
    ∃ p : GenState, loopCond a.opsLimit a.bytecodeLimit p = true
      ∧ genLoop a σ fuel st = genStep a σ p := by
  intro a σ fuel
  induction fuel with
  | zero => intro st; exact .inl rfl
  | succ n ih =>
    intro st
    by_cases h : loopCond a.opsLimit a.bytecodeLimit st = true
    · rcases ih (genStep a σ st) with h2 | ⟨p, hp, h2⟩
      · exact .inr ⟨st, h, by simp only [genLoop, h, if_true]; exact h2⟩
      · exact .inr ⟨p, hp, by simp only [genLoop, h, if_true]; exact h2⟩
    · refine .inl ?_
      simp only [genLoop]
      rw [if_neg (by simpa using h)]

/-- Claim C9: in a concrete clean-stack-off run (draws: DUPclass, DUP1, a
push value, ISZERO, ADD, a push value; `ops_limit = 3`) the second iteration
computes `needed_pushes = 1 - 2 = -1`, emits no pushes (only the ISZERO
byte) yet decrements the counter, so the returned final instruction count
(4) is strictly less than the number of instructions actually emitted in
the bytecode (5). -/
theorem C9_theorem :
    _generate_random_arithmetic aC9 sigC9 10 = .ok (genLoop aC9 sigC9 10 initState)
    ∧ (genStep aC9 sigC9 initState).previous_nreturns = 2
    ∧ (emitFor 32 false false sigC9 4 2 0x15).neededPushes = -1
    ∧ (emitFor 32 false false sigC9 4 2 0x15).bytes = [0x15]
    ∧ (genLoop aC9 sigC9 10 initState).ops_count = 4
    ∧ instrCount (genLoop aC9 sigC9 10 initState).bytecode = 5
    ∧ (genLoop aC9 sigC9 10 initState).ops_count
        < (instrCount (genLoop aC9 sigC9 10 initState).bytecode : Int) :=
  ⟨rfl, by decide, by decide, by decide, by decide, by decide, by decide⟩

/-- Claim C7, counterexample: `dominant = 0` denotes the operation `0x00`
(STOP), which is not in the sampling universe, yet no invalid-argument
error is raised: the Python guard `if dominant and dominant not in all_ops`
short-circuits on the falsy integer `0` and the call returns normally. -/
theorem C7_counterexample :
    PoolEntry.op 0 ∉ all_ops
    ∧ aD0.dominant = some (.op 0)
    ∧ _generate_random_arithmetic aD0 sigma0 5 = .ok (genLoop aD0 sigma0 5 initState) :=
  ⟨by decide, rfl, rfl⟩

/-- Claim C7, amended: a push width outside `[1, 32]` and a *truthy*
(nonzero) dominant operation outside the sampling universe raise an
invalid-argument error, and a repetition count above the global instruction
ceiling fails the assertion, in each case before any bytecode is produced
(the error results carry no output); a dominant of `0` is falsy in Python
and is silently treated as absent. -/
theorem C7_theorem :
    (∀ (a : GenArgs) (σ : Nat → Nat) (fuel : Nat),
      a.pushMax < 1 ∨ a.pushMax > 32 →
      _generate_random_arithmetic a σ fuel = .error .valueError)
    ∧ (∀ (a : GenArgs) (σ : Nat → Nat) (fuel : Nat) (d : PoolEntry),
        a.dominant = some d → truthy d = true → d ∉ all_ops →
        _generate_random_arithmetic a σ fuel = .error .valueError)
    ∧ (∀ (operation : MOperation) (op_count max_op_count : Nat),
        MAX_INSTRUCTIONS < op_count →
        _generate_single_program operation op_count max_op_count = .error .assertionError) := by
  refine ⟨?_, ?_, ?_⟩
  · intro a σ fuel h
    simp only [_generate_random_arithmetic, if_pos h]
  · intro a σ fuel d hd ht hn
    by_cases hp : a.pushMax < 1 ∨ a.pushMax > 32
    · simp only [_generate_random_arithmetic, if_pos hp]
    · simp only [_generate_random_arithmetic, if_neg hp, hd]
      rw [if_pos ⟨ht, hn⟩]
  · intro operation op_count max_op_count h
    simp only [_generate_single_program, if_pos h]

/-- Claim C7, witness: the amended theorem at concrete inputs — push width
`0` errors, a truthy unknown dominant `0x4d` errors, and a repetition count
of `501` fails the assertion. -/
theorem C7_witness :
    _generate_random_arithmetic aBadPush sigma0 5 = .error .valueError
    ∧ _generate_random_arithmetic aBadDom sigma0 5 = .error .valueError
    ∧ _generate_single_program CREATE_OP 501 50 = .error .assertionError :=
  ⟨C7_theorem.1 aBadPush sigma0 5 (by decide),
   C7_theorem.2.1 aBadDom sigma0 5 (.op 0x4d) rfl (by decide) (by decide),
   C7_theorem.2.2 CREATE_OP 501 50 (by decide)⟩

/-- Claim C8: generation is a deterministic function of the random stream
and the arguments — equal streams and equal arguments give byte-identical
results, for both synthesizers: `_generate_random_arithmetic` and the
`generate` entry point of the randomized synthesizer, and `_do_generate`
of the isolation synthesizer, whose only random dependence is the
`random.shuffle(op_counts)` of `shuffleCounts` mode (both Python files seed
the process-wide stream once at construction by `random.seed(a=seed)` and
every sampling call advances it deterministically, so a fixed seed fixes
the stream). -/
theorem C8_theorem : ∀ (a₁ a₂ : GenArgs) (σ₁ σ₂ : Nat → Nat) (fuel : Nat)
    (self_operations : List MOperation) (opcode : Option String)
    (max_op_count : Nat) (shuffle_counts : Bool) (step_op_count idx : Nat),
    a₁ = a₂ → (∀ i, σ₁ i = σ₂ i) →
    _generate_random_arithmetic a₁ σ₁ fuel = _generate_random_arithmetic a₂ σ₂ fuel
    ∧ generate a₁ σ₁ fuel = generate a₂ σ₂ fuel
    ∧ _do_generate self_operations opcode max_op_count shuffle_counts step_op_count σ₁ idx
        = _do_generate self_operations opcode max_op_count shuffle_counts step_op_count σ₂ idx := by
  intro a₁ a₂ σ₁ σ₂ fuel self_operations opcode max_op_count shuffle_counts
    step_op_count idx ha hσ
  have hs : σ₁ = σ₂ := funext hσ
  subst ha
  subst hs
  exact ⟨rfl, rfl, rfl⟩

/-- Claim C8, witness: the determinism theorem applied to a concrete
argument record and stream — including a concrete isolation-synthesizer
batch with `shuffleCounts` set, so the shuffle really draws from the
stream. -/
theorem C8_witness :
    _generate_random_arithmetic aC8 sigma0 6 = _generate_random_arithmetic aC8 sigma0 6
    ∧ generate aC8 sigma0 6 = generate aC8 sigma0 6
    ∧ _do_generate [CREATE_OP, EXTCODESIZE_OP] none 10 true 5 sigma0 0
        = _do_generate [CREATE_OP, EXTCODESIZE_OP] none 10 true 5 sigma0 0 :=
  C8_theorem aC8 aC8 sigma0 sigma0 6 [CREATE_OP, EXTCODESIZE_OP] none 10 true 5 0
    rfl (fun _ => rfl)

/-- Claim C10: a zero limit is treated as absent.  With both limits falsy
(`0` or not passed) the `generate` entry point defaults the operation limit
to 100; and with `ops_limit = 0` the loop behaves exactly as with no
operation limit at all (only a bytecode limit can stop it). -/
theorem C10_theorem : ∀ (a : GenArgs) (σ : Nat → Nat) (fuel : Nat),
    ((a.opsLimit = some 0 ∨ a.opsLimit = none) →
     (a.bytecodeLimit = some 0 ∨ a.bytecodeLimit = none) →
      generate a σ fuel
        = _generate_random_arithmetic { a with opsLimit := some 100 } σ fuel)
    ∧ (∀ (fuel' : Nat) (st : GenState),
        genLoop { a with opsLimit := some 0 } σ fuel' st
          = genLoop { a with opsLimit := none } σ fuel' st) := by
  intro a σ fuel
  constructor
  · intro h1 h2
    rcases h1 with h1 | h1 <;> rcases h2 with h2 | h2 <;>
      simp only [generate, falsy, h1, h2] <;> rfl
  · intro fuel'
    induction fuel' with
    | zero => intro st; rfl
    | succ n ih =>
      intro st
      show (if loopCond (some 0) a.bytecodeLimit st then
              genLoop { a with opsLimit := some 0 } σ n
                (genStep { a with opsLimit := some 0 } σ st)
            else st)
          = (if loopCond none a.bytecodeLimit st then
              genLoop { a with opsLimit := none } σ n
                (genStep { a with opsLimit := none } σ st)
            else st)
      have hc : loopCond (some 0) a.bytecodeLimit st = loopCond none a.bytecodeLimit st := by
        simp [loopCond, falsy]
      have hstep : genStep { a with opsLimit := some 0 } σ st
          = genStep { a with opsLimit := none } σ st := rfl
      rw [hc, hstep]
      by_cases h : loopCond none a.bytecodeLimit st = true
      · rw [if_pos h, if_pos h]
        exact ih _
      · rw [if_neg (by simpa using h), if_neg (by simpa using h)]

/-- Claim C10, witness: with `ops_limit = 0` passed and no bytecode limit,
`generate` runs with the default limit of 100; and the loop with
`ops_limit = 0` equals the loop without an operation limit on a concrete
state. -/
theorem C10_witness :
    generate aC10 sigma0 3
      = _generate_random_arithmetic { aC10 with opsLimit := some 100 } sigma0 3
    ∧ genLoop { aC10 with opsLimit := some 0 } sigma0 3 initState
        = genLoop { aC10 with opsLimit := none } sigma0 3 initState :=
  ⟨(C10_theorem aC10 sigma0 3).1 (Or.inl rfl) (Or.inr rfl),
   (C10_theorem aC10 sigma0 3).2 3 initState⟩

theorem emitFor_opNum (pushMax : Nat) (rp cleanStack : Bool) (σ : Nat → Nat) (i prev opNum : Nat) :
    (emitFor pushMax rp cleanStack σ i prev opNum).opNum = opNum := by
  unfold emitFor
  split_ifs <;> rfl

/-- Claim C4: with `clean_stack = true` the abstract pending-returns
counter (the ghost `stack` field: values left on the notional stack) is `0`
immediately after every emitted operation — one `genStep` from a
zero-stack state lands on a zero-stack state, and hence the whole loop
preserves an empty abstract stack after every iteration (the synthesizer
emits exactly arity-out POPs after the opcode). -/
theorem C4_theorem : ∀ (a : GenArgs) (σ : Nat → Nat), a.cleanStack = true →
    (∀ st : GenState, st.stack = 0 → (genStep a σ st).stack = 0)
    ∧ (∀ (fuel : Nat) (st : GenState), st.stack = 0 → (genLoop a σ fuel st).stack = 0) := by
  intro a σ hcs
  have hstep : ∀ st : GenState, st.stack = 0 → (genStep a σ st).stack = 0 := by
    intro st hst
    have key := emitFor_clean_stack a.pushMax a.randomizePush σ
      (drawOp a.dominant σ st.rng).2 st.previous_nreturns (drawOp a.dominant σ st.rng).1
    simp only [genStep, hcs, emitFor_opNum]
    omega
  refine ⟨hstep, ?_⟩
  intro fuel
  induction fuel with
  | zero => intro st hst; exact hst
  | succ n ih =>
    intro st hst
    show (if loopCond a.opsLimit a.bytecodeLimit st then
            genLoop a σ n (genStep a σ st) else st).stack = 0
    by_cases h : loopCond a.opsLimit a.bytecodeLimit st = true
    · rw [if_pos h]
      exact ih _ (hstep st hst)
    · rw [if_neg (by simpa using h)]
      exact hst

/-- Claim C4, witness: the invariant at a concrete clean-stack run. -/
theorem C4_witness :
    (genStep aCleanArgs sigma0 initState).stack = 0
    ∧ (genLoop aCleanArgs sigma0 10 initState).stack = 0 :=
  ⟨(C4_theorem aCleanArgs sigma0 rfl).1 initState rfl,
   (C4_theorem aCleanArgs sigma0 rfl).2 10 initState rfl⟩

/-- Claim C6: every BYTE / SIGNEXTEND emission carries, immediately before
the opcode byte, a `PUSH1` immediate in `[0, 31]` as its final
(top-of-stack) operand, and every SHL / SHR / SAR emission carries a
single-byte-width `PUSH1` immediate immediately before the opcode,
regardless of the general push-width setting — every occurrence of these
opcodes in an emitted program arises from such an emission. -/
theorem C6_theorem : ∀ (pushMax : Nat) (rp cleanStack : Bool) (σ : Nat → Nat) (i prev opNum : Nat),
    (opNum ∈ byte_ops →
      ∃ pre v, v ≤ 31 ∧
        (emitFor pushMax rp cleanStack σ i prev opNum).bytes
          = pre ++ [0x60, v, opNum]
              ++ List.replicate (if cleanStack then (operations opNum).added else 0) 0x50)
    ∧ (opNum ∈ shift_ops →
      ∃ pre v, v < 256 ∧
        (emitFor pushMax rp cleanStack σ i prev opNum).bytes
          = pre ++ [0x60, v, opNum]
              ++ List.replicate (if cleanStack then (operations opNum).added else 0) 0x50) := by
  intro pushMax rp cleanStack σ i prev opNum
  constructor
  · intro hb
    by_cases hc : (cleanStack || prev == 0) = true
    · refine ⟨(_random_push σ i pushMax rp).1,
              σ ((_random_push σ i pushMax rp).2) % 32, ?_, ?_⟩
      · have := Nat.mod_lt (σ ((_random_push σ i pushMax rp).2)) (show 0 < 32 by norm_num)
        omega
      · simp only [emitFor, hb, ite_true, hc, _random_push_less_32, randRandint]
        simp
    · refine ⟨[], σ i % 32, ?_, ?_⟩
      · have := Nat.mod_lt (σ i) (show 0 < 32 by norm_num)
        omega
      · simp only [emitFor, hb, ite_true, hc, _random_push_less_32, randRandint]
        simp
  · intro hs
    have hb : opNum ∉ byte_ops := by
      fin_cases hs <;> decide
    by_cases hc : (cleanStack || prev == 0) = true
    · refine ⟨(_random_push σ i pushMax rp).1,
              σ ((_random_push σ i pushMax rp).2) % 2 ^ 8 % 256, ?_, ?_⟩
      · exact Nat.mod_lt _ (by norm_num)
      · simp only [emitFor, hb, hs, ite_true, ite_false, hc, _random_push,
                   randGetrandbits, beBytes]
        simp
    · refine ⟨[], σ i % 2 ^ 8 % 256, ?_, ?_⟩
      · exact Nat.mod_lt _ (by norm_num)
      · simp only [emitFor, hb, hs, ite_true, ite_false, hc, _random_push,
                   randGetrandbits, beBytes]
        simp

/-- Claim C6, witness: the theorem at a concrete byte-class emission
(opcode `0x1a`, BYTE) and a concrete shift-class emission (opcode `0x1b`,
SHL). -/
theorem C6_witness :
    (∃ pre v, v ≤ 31 ∧
      (emitFor 32 false false sigma0 0 0 0x1a).bytes
        = pre ++ [0x60, v, 0x1a]
            ++ List.replicate (if false then (operations 0x1a).added else 0) 0x50)
    ∧ (∃ pre v, v < 256 ∧
      (emitFor 32 false false sigma0 0 0 0x1b).bytes
        = pre ++ [0x60, v, 0x1b]
            ++ List.replicate (if false then (operations 0x1b).added else 0) 0x50) :=
  ⟨(C6_theorem 32 false false sigma0 0 0 0x1a).1 (by decide),
   (C6_theorem 32 false false sigma0 0 0 0x1b).2 (by decide)⟩

theorem instrCountAux_less32 (σ : Nat → Nat) (j : Nat) (rest : List Nat) :
    instrCountAux 0 ((_random_push_less_32 σ j).1 ++ rest) = 1 + instrCountAux 0 rest := by
  simp only [_random_push_less_32, randRandint]
  exact instrCountAux_push1 _ rest

theorem instrCountAux_pops_nil (k : Nat) : instrCountAux 0 (List.replicate k 0x50) = k := by
  have h := instrCountAux_pops k []
  simpa using h

/-- Claim C5, counterexample: in the run whose draws are DUPclass, DUP1, a
push value, BYTE, a byte-index value (`clean_stack = false`), the first
iteration leaves pending-returns 2; the second iteration samples BYTE
(arity-in 2), so the claim predicts `2 - 2 = 0` operand pushes, yet the
iteration emits the bytes `60 00 1a` — one `PUSH1` operand push followed by
the opcode, i.e. 2 instructions where the claim predicts 1. -/
theorem C5_counterexample :
    (genStep aC5 sigC5 initState).previous_nreturns = 2
    ∧ drawOp aC5.dominant sigC5 (genStep aC5 sigC5 initState).rng = (0x1a, 4)
    ∧ (operations 0x1a).removed = 2
    ∧ (emitFor 32 false false sigC5 4 2 0x1a).bytes = [0x60, 0x00, 0x1a]
    ∧ instrCount (emitFor 32 false false sigC5 4 2 0x1a).bytes
        ≠ ((operations 0x1a).removed - (genStep aC5 sigC5 initState).previous_nreturns) + 1 :=
  ⟨by decide, by decide, by decide, by decide, by decide⟩

/-- Claim C5, amended: the number of operand-push instructions emitted
before the sampled operation is the full arity-in when `clean_stack` is
true and `max(0, arity-in - pending-returns)` (never negative) when it is
false — except for the byte-extraction and shift classes, which emit one
wide operand push only when `clean_stack` holds or pending-returns is zero,
plus always exactly one final narrow push.  Stated through the instruction
count of the emitted bytes: pushes, then the opcode, then the clean-stack
POPs. -/
theorem C5_theorem : ∀ (pushMax : Nat) (rp cleanStack : Bool) (σ : Nat → Nat) (i prev opNum : Nat),
    1 ≤ pushMax → pushMax ≤ 32 → ¬ (0x60 ≤ opNum ∧ opNum ≤ 0x7f) →
    instrCount (emitFor pushMax rp cleanStack σ i prev opNum).bytes
      = (if opNum ∈ byte_ops ∨ opNum ∈ shift_ops
         then (if cleanStack || prev == 0 then 1 else 0) + 1
         else if cleanStack then (operations opNum).removed
              else (((operations opNum).removed : Int) - (prev : Int)).toNat)
        + 1 + (if cleanStack then (operations opNum).added else 0) := by
  intro pushMax rp cleanStack σ i prev opNum h1 h2 hnp
  by_cases hb : opNum ∈ byte_ops
  · by_cases hc : (cleanStack || prev == 0) = true
    · simp only [instrCount, emitFor, hb, hc, ite_true, List.append_assoc,
                 List.singleton_append]
      rw [instrCountAux_random_push σ i pushMax rp _ h1 h2, instrCountAux_less32,
          instrCountAux_nonpush _ _ hnp, instrCountAux_pops_nil]
      simp only [hb, hc, true_or, ite_true]
      omega
    · simp only [instrCount, emitFor, hb, hc, ite_true, Bool.false_eq_true, ite_false,
                 List.append_assoc, List.singleton_append, List.nil_append]
      rw [instrCountAux_less32, instrCountAux_nonpush _ _ hnp, instrCountAux_pops_nil]
      simp only [hb, hc, true_or, ite_true, Bool.false_eq_true, ite_false]
      omega
  · by_cases hs : opNum ∈ shift_ops
    · by_cases hc : (cleanStack || prev == 0) = true
      · simp only [instrCount, emitFor, hb, hs, ite_true, ite_false, hc,
                   List.append_assoc, List.singleton_append]
        rw [instrCountAux_random_push σ i pushMax rp _ h1 h2,
            instrCountAux_random_push σ _ 1 false _ (by norm_num) (by norm_num),
            instrCountAux_nonpush _ _ hnp, instrCountAux_pops_nil]
        simp only [hb, hs, or_true, ite_true, hc]
        omega
      · simp only [instrCount, emitFor, hb, hs, ite_true, ite_false, hc,
                   Bool.false_eq_true, List.append_assoc, List.singleton_append,
                   List.nil_append]
        rw [instrCountAux_random_push σ i 1 false _ (by norm_num) (by norm_num),
            instrCountAux_nonpush _ _ hnp, instrCountAux_pops_nil]
        simp only [hb, hs, or_true, ite_true, hc, Bool.false_eq_true, ite_false]
        omega
    · simp only [instrCount, emitFor, hb, hs, ite_false, List.append_assoc,
                 List.singleton_append]
      rw [instrCountAux_randomPushes σ pushMax rp h1 h2 _ i _,
          instrCountAux_nonpush _ _ hnp, instrCountAux_pops_nil]
      simp only [hb, hs, or_self, ite_false]
      cases cleanStack with
      | true => simp only [if_true]; omega
      | false => simp only [Bool.false_eq_true, if_false]

/-- Claim C5, witness: the amended theorem at a concrete emission — ADD
(arity-in 2) with pending-returns 0 and `clean_stack = false` emits two
wide pushes then the opcode. -/
theorem C5_witness :
    instrCount (emitFor 32 false false sigma0 0 0 0x01).bytes
      = (if (0x01 : Nat) ∈ byte_ops ∨ (0x01 : Nat) ∈ shift_ops
         then (if false || (0 : Nat) == 0 then 1 else 0) + 1
         else if false then (operations 0x01).removed
              else (((operations 0x01).removed : Int) - ((0 : Nat) : Int)).toNat)
        + 1 + (if false then (operations 0x01).added else 0) :=
  C5_theorem 32 false false sigma0 0 0 0x01 (by decide) (by decide) (by decide)

/-- Claim C1, counterexample: for EXTCODESIZE with `max_repetition_count`
1, the programs for repetition counts 0 and 1 have different lengths (each
performed repetition contributes its opcode byte net of the removed POP),
refuting "identical total instruction count and byte length for every
repetition_count in [0, M]" — and likewise for CREATE. -/
theorem C1_counterexample :
    (_generate_extcode_program EXTCODESIZE_OP 0 1).length
        ≠ (_generate_extcode_program EXTCODESIZE_OP 1 1).length
    ∧ (_generate_create_program CREATE_OP 0).length
        ≠ (_generate_create_program CREATE_OP 1).length := by
  constructor
  · rw [extcode_program_length 0 1 (by decide), extcode_program_length 1 1 (by decide)]
    omega
  · rw [create_program_length 0 (by decide), create_program_length 1 (by decide)]
    omega

/-- Claim C1, amended: the constant-length invariant holds for the
deployment-harness generators whose real and no-op invocation sequences
are byte-identical (TLOAD_EXT here; TSTORE_EXT and REVERT/RETURN have the
same shape), but not for the padding generators: the CREATE program length
is affine in the repetition count with increment 14 hex characters (three
operand pushes and the opcode per repetition), and the EXTCODEHASH /
EXTCODESIZE program length is affine with increment 2 hex characters (the
net opcode byte per repetition). -/
theorem C1_theorem :
    (∀ n max, n ≤ max →
      (_generate_tload_ext_program TLOAD_EXT_OP n max).length = 122 + 32 * max)
    ∧ (∀ n, n ≤ MAX_INSTRUCTIONS →
      (_generate_create_program CREATE_OP n).length
        = 6 * MAX_INSTRUCTIONS + 36 + 14 * n)
    ∧ (∀ n max, n ≤ MAX_INSTRUCTIONS + max →
      (_generate_extcode_program EXTCODESIZE_OP n max).length
        = 6 * MAX_INSTRUCTIONS + 48 + 2 * (max - 1) + 2 * max + 2 * n) :=
  ⟨tload_ext_program_length, create_program_length, extcode_program_length⟩

/-- Claim C1, witness: the amended theorem at concrete inputs — the
TLOAD_EXT program for repetition counts 0 and 10 out of 10 has one and the
same length, and the CREATE and EXTCODESIZE lengths follow the affine
formulas. -/
theorem C1_witness :
    (_generate_tload_ext_program TLOAD_EXT_OP 0 10).length = 122 + 32 * 10
    ∧ (_generate_tload_ext_program TLOAD_EXT_OP 10 10).length = 122 + 32 * 10
    ∧ (_generate_create_program CREATE_OP 5).length
        = 6 * MAX_INSTRUCTIONS + 36 + 14 * 5
    ∧ (_generate_extcode_program EXTCODESIZE_OP 5 10).length
        = 6 * MAX_INSTRUCTIONS + 48 + 2 * (10 - 1) + 2 * 10 + 2 * 5 :=
  ⟨C1_theorem.1 0 10 (by decide), C1_theorem.1 10 10 (by decide),
   C1_theorem.2.1 5 (by decide), C1_theorem.2.2 5 10 (by decide)⟩

/-- Claim C2, counterexample: for CALL the real per-invocation sequence
`single_call` (7 DUPs, CALL, POP: 9 instructions, 18 hex characters) and
its inline no-op substitute `noop` (16 bytes, 15 instructions) are neither
byte-for-byte equal in length nor equal in instruction count; and for
TLOAD_EXT the embedded real and no-op sub-programs differ in instruction
count (2 versus 1). -/
theorem C2_counterexample :
    ¬ ((single_call "CALL").length = (noop "CALL").length
       ∧ instrCount (strBytes (single_call "CALL")) = instrCount (strBytes (noop "CALL")))
    ∧ instrCount (strBytes (tload_ext_op_subcontext_code TLOAD_EXT_OP))
        ≠ instrCount (strBytes tload_ext_no_op_subcontext_code) := by
  constructor
  · intro h
    exact absurd h.1 (by decide)
  · decide

/-- Claim C2, amended: for the TLOAD_EXT / TSTORE_EXT / REVERT / RETURN
deployment harnesses the real and no-op *invocation* sequences are
byte-identical, and the embedded real sub-program is the no-op sub-program
extended by exactly the one measured opcode byte (instruction counts differ
by exactly one); for CALL / STATICCALL / DELEGATECALL the real invocation
and its inline no-op substitute have the instruction counts 9/15, 8/14 and
8/14 respectively — they replay the same invoked opcode series but are not
byte-for-byte equal. -/
theorem C2_theorem :
    (tload_ext_op_call = tload_ext_no_op_call
     ∧ tstore_ext_op_call = tstore_ext_no_op_call
     ∧ subcontext_exit_op_call = subcontext_exit_no_op_call)
    ∧ (tload_ext_op_subcontext_code TLOAD_EXT_OP
         = tload_ext_no_op_subcontext_code ++ opByteHex TLOAD_EXT_OP
       ∧ instrCount (strBytes (tload_ext_op_subcontext_code TLOAD_EXT_OP))
         = instrCount (strBytes tload_ext_no_op_subcontext_code) + 1
       ∧ tstore_ext_op_subcontext_code TSTORE_EXT_OP
         = tstore_ext_no_op_subcontext_code ++ opByteHex TSTORE_EXT_OP
       ∧ instrCount (strBytes (tstore_ext_op_subcontext_code TSTORE_EXT_OP))
         = instrCount (strBytes tstore_ext_no_op_subcontext_code) + 1
       ∧ subcontext_exit_op_subcontext_code REVERT_OP
         = subcontext_exit_no_op_subcontext_code ++ opByteHex REVERT_OP
       ∧ instrCount (strBytes (subcontext_exit_op_subcontext_code REVERT_OP))
         = instrCount (strBytes subcontext_exit_no_op_subcontext_code) + 1)
    ∧ (instrCount (strBytes (single_call "CALL")) = 9
       ∧ instrCount (strBytes (noop "CALL")) = 15
       ∧ instrCount (strBytes (single_call "STATICCALL")) = 8
       ∧ instrCount (strBytes (noop "STATICCALL")) = 14
       ∧ instrCount (strBytes (single_call "DELEGATECALL")) = 8
       ∧ instrCount (strBytes (noop "DELEGATECALL")) = 14) := by
  refine ⟨⟨rfl, rfl, rfl⟩, ⟨rfl, by decide, rfl, by decide, rfl, by decide⟩,
          by decide, by decide, by decide, by decide, by decide, by decide⟩
